import Mathlib

/-!
Verification of the command-line harness in `src/main.py` (Fake News
Classifier).  The script parses arguments, validates the mode flags,
optionally sets up a run directory and file logging, seeds the random
number generators, loads and shuffles the preprocessed samples, splits
them into train/validation/test subsets, and dispatches to training,
testing and plotting.

The embedding below models `main` as a pure function from the parsed
arguments and its external collaborators (path construction, directory
probing, shuffling, dataset splitting — all defined outside `main.py`
and therefore passed in as parameters) to a trace of observable effects
together with the exit status and the computed data splits.
-/

/-- The parsed command-line arguments (`argparse` namespace of `main.py`,
lines 24-58).  `lr` is the learning-rate float, embedded as a rational. -/
structure Args where
  init : Bool
  train : Bool
  test : Bool
  plot : Bool
  batch_size : Int
  data_loader : String
  dataset : String
  epochs : Int
  lr : Rat
  load : Option Int
  loss : String
  model : String
  sample_size : Option Int
  seed : Int
  save : Bool
deriving Repr, DecidableEq

/-- The `argparse` defaults of `main.py` lines 26-57. -/
def defaultArgs : Args where
  init := false
  train := false
  test := false
  plot := false
  batch_size := 64
  data_loader := "BatchLoader"
  dataset := "FakeRealNews"
  epochs := 10
  lr := 1 / 10000
  load := none
  loss := "BCEWithLogitsLoss"
  model := "FakeNewsNet"
  sample_size := none
  seed := 0
  save := true

/-- Mantissa of a decimal literal: an optional sign, digits, and an
optional fractional part, as accepted for the `--lr` option. -/
def parseMantissa? (m : String) : Option Rat :=
  match m.splitOn "." with
  | [i] => (i.toInt?).map (fun n => (n : Rat))
  | [i, f] =>
    match i.toInt?, f.toNat? with
    | some n, some fv =>
      let fr : Rat := (fv : Rat) / ((10 : Rat) ^ f.length)
      some (if i.startsWith "-" then (n : Rat) - fr else (n : Rat) + fr)
    | _, _ => none
  | _ => none

/-- Decimal literal with an optional exponent part (`1e-4`), as accepted
for the `--lr` option. -/
def parseFloat? (s : String) : Option Rat :=
  match s.splitOn "e" with
  | [m] => parseMantissa? m
  | [m, ex] =>
    match parseMantissa? m, ex.toInt? with
    | some q, some e =>
      some (if 0 ≤ e then q * (10 : Rat) ^ e.toNat else q / (10 : Rat) ^ (-e).toNat)
    | _, _ => none
  | _ => none

/-- One pass over the command-line tokens, updating the argument record
exactly as the `add_argument` declarations of `main.py` lines 26-57
prescribe: the four store-true mode flags, the valued options with their
short and long spellings, and `--save` / `--no-save` on the shared
`save` destination.  Unknown tokens or unparsable values fail. -/
def parseTokens : List String → Args → Option Args
  | [], a => some a
  | "--init" :: r, a => parseTokens r { a with init := true }
  | "--train" :: r, a => parseTokens r { a with train := true }
  | "--test" :: r, a => parseTokens r { a with test := true }
  | "--plot" :: r, a => parseTokens r { a with plot := true }
  | "--save" :: r, a => parseTokens r { a with save := true }
  | "--no-save" :: r, a => parseTokens r { a with save := false }
  | "-b" :: v :: r, a =>
    match v.toInt? with
    | some n => parseTokens r { a with batch_size := n }
    | none => none
  | "--batch-size" :: v :: r, a =>
    match v.toInt? with
    | some n => parseTokens r { a with batch_size := n }
    | none => none
  | "--data-loader" :: v :: r, a => parseTokens r { a with data_loader := v }
  | "--dataset" :: v :: r, a => parseTokens r { a with dataset := v }
  | "-e" :: v :: r, a =>
    match v.toInt? with
    | some n => parseTokens r { a with epochs := n }
    | none => none
  | "--epochs" :: v :: r, a =>
    match v.toInt? with
    | some n => parseTokens r { a with epochs := n }
    | none => none
  | "--lr" :: v :: r, a =>
    match parseFloat? v with
    | some q => parseTokens r { a with lr := q }
    | none => none
  | "--learning-rate" :: v :: r, a =>
    match parseFloat? v with
    | some q => parseTokens r { a with lr := q }
    | none => none
  | "-l" :: v :: r, a =>
    match v.toInt? with
    | some n => parseTokens r { a with load := some n }
    | none => none
  | "--load" :: v :: r, a =>
    match v.toInt? with
    | some n => parseTokens r { a with load := some n }
    | none => none
  | "--loss" :: v :: r, a => parseTokens r { a with loss := v }
  | "--model" :: v :: r, a => parseTokens r { a with model := v }
  | "-s" :: v :: r, a =>
    match v.toInt? with
    | some n => parseTokens r { a with sample_size := some n }
    | none => none
  | "--sample-size" :: v :: r, a =>
    match v.toInt? with
    | some n => parseTokens r { a with sample_size := some n }
    | none => none
  | "--seed" :: v :: r, a =>
    match v.toInt? with
    | some n => parseTokens r { a with seed := n }
    | none => none
  | _, _ => none

/-- `parser.parse_args()` on an explicit token list (`main.py` line 58):
start from the declared defaults and apply the tokens. -/
def parse_args (argv : List String) : Option Args :=
  parseTokens argv defaultArgs

/-- Observable effects of one run of `main`, in program order. -/
inductive Effect where
  | logError (msg : String)
  | logInfo (msg : String)
  | checkDir (path : String)
  | saveConfig
  | makeDirs (path : String)
  | addFileHandler (path : String)
  | torchManualSeed (s : Int)
  | datasetLoad
  | gloveLoad
  | getSamples
  | shuffle
  | createModel
  | loadModel (epoch : Int)
  | trainModel
  | evaluate
  | logTestMetrics
  | loadTrainingData
  | plot
deriving Repr, DecidableEq

/-- Error message of `main.py` line 67. -/
def noModeMsg : String :=
  "No mode specified. Please choose one of \"--init\", \"--train\", \"--test\", \"--plot\"."

/-- Error message of `main.py` line 75, with the path formatted in. -/
def dirErrMsg (p : String) : String :=
  "Could not find directory for current configuration " ++ p

/-- Error message of `main.py` line 81. -/
def testErrMsg : String :=
  "Cannot run \"--test\" without a model. Try again with either \"--train\" or \"--load\"."

/-- Error message of `main.py` line 154. -/
def noModelMsg : String := "No model loaded for testing"

/-- Info message of `main.py` line 162. -/
def plotMsg : String := "Plotting training data"

/-- Condition of `main.py` line 66: no mode flag was given. -/
def noMode (a : Args) : Bool :=
  !a.init && !a.train && !a.test && !a.plot

/-- Left operand of the conjunction on `main.py` lines 72-74: a model is
being loaded, or plotting is requested without training. -/
def dirGateCond (a : Args) : Bool :=
  a.load.isSome || (a.plot && !a.train)

/-- Condition of `main.py` line 80: testing without training or loading. -/
def testGateCond (a : Args) : Bool :=
  a.test && !(a.train || a.load.isSome)

/-- Second operand of the condition on `main.py` lines 87-88: the run
only performs initialization. -/
def initOnly (a : Args) : Bool :=
  a.init && !(a.train || a.test || a.plot)

/-- The run survives all three argument-validation exits of
`main.py` lines 66-84, where `dirExists` is the value of
`os.path.isdir(utils.get_path(args))`. -/
def passesValidation (a : Args) (dirExists : Bool) : Bool :=
  !noMode a && !(dirGateCond a && !dirExists) && !testGateCond a

/-- Python list slicing `l[:n]` (used on `main.py` lines 125-127): a
nonnegative bound keeps the first `n` elements, a negative bound drops
the last `-n` elements. -/
def pySlice {α : Type} (l : List α) (n : Int) : List α :=
  if 0 ≤ n then l.take n.toNat else l.take ((l.length : Int) + n).toNat

/-- Number of binary digits of a natural number, with an explicit fuel
argument for structural recursion (`fuel ≥ n` suffices). -/
def bitsFuel : Nat → Nat → Nat
  | 0, _ => 0
  | fuel + 1, n => if n = 0 then 0 else bitsFuel fuel (n / 2) + 1

/-- Number of binary digits of a natural number (`bitlen 0 = 0`, and
`2 ^ (bitlen n - 1) ≤ n < 2 ^ bitlen n` for positive `n`). -/
def bitlen (n : Nat) : Nat := bitsFuel n n

/-- Round the fraction `a / b` to the nearest integer, ties to even. -/
def rndNat (a b : Nat) : Nat :=
  let q := a / b
  let r := a % b
  if 2 * r < b then q
  else if b < 2 * r then q + 1
  else if q % 2 = 0 then q else q + 1

/-- Decides `2 ^ k ≤ a / b` for naturals `a`, `b` and an integer `k`. -/
def lePow2 (a b : Nat) (k : Int) : Bool :=
  if 0 ≤ k then b * 2 ^ k.toNat ≤ a else b ≤ a * 2 ^ (-k).toNat

/-- The IEEE-754 binary64 value nearest to the nonnegative fraction
`a / b`, returned as an exact fraction: the quotient is scaled to a
53-bit significand, rounded to nearest with ties to even, and scaled
back.  Exponent-range overflow and subnormals are not modelled; the
values reached from `main.py` line 126 all lie in the normal range
(Python raises `OverflowError` converting integers beyond it). -/
def roundFrac (a b : Nat) : Nat × Nat :=
  if a = 0 then (0, 1)
  else
    let la : Int := (bitlen a : Int)
    let lb : Int := (bitlen b : Int)
    let p : Int := if lePow2 a b (la - lb) then la - lb else la - lb - 1
    let m : Nat :=
      if 0 ≤ 52 - p then rndNat (a * 2 ^ (52 - p).toNat) b
      else rndNat a (b * 2 ^ (p - 52).toNat)
    if 0 ≤ p - 52 then (m * 2 ^ (p - 52).toNat, 1) else (m, 2 ^ (52 - p).toNat)

/-- Binary64 multiplication of exactly-represented doubles: the exact
product, rounded to the nearest double. -/
def fmulFrac (x y : Nat × Nat) : Nat × Nat := roundFrac (x.1 * y.1) (x.2 * y.2)

/-- Binary64 division of exactly-represented doubles: the exact
quotient, rounded to the nearest double. -/
def fdivFrac (x y : Nat × Nat) : Nat × Nat := roundFrac (x.1 * y.2) (x.2 * y.1)

/-- `int(n * 0.2 / 0.6)` for a natural `n`, computed as Python executes
`main.py` line 126: `n` is converted to binary64, multiplied by the
double nearest `0.2` and divided by the double nearest `0.6`, each
operation rounding to nearest-even, and the result truncated. -/
def boundPos (n : Nat) : Nat :=
  let f := roundFrac n 1
  let p := fmulFrac f (roundFrac 2 10)
  let d := fdivFrac p (roundFrac 6 10)
  d.1 / d.2

/-- `int(args.sample_size * split_ratio[1] / split_ratio[0])` of
`main.py` line 126 for an arbitrary integer sample size: every step of
the double-precision pipeline is odd-symmetric (rounding to nearest-even
and `int()` truncation toward zero commute with negation), so the sign
is factored out. -/
def sampleValidBound (n : Int) : Int :=
  if n < 0 then -(boundPos n.natAbs : Int) else (boundPos n.toNat : Int)

/-- The `split_ratio` constant of `main.py` line 121. -/
def split_ratio_const : List Rat := [6 / 10, 2 / 10, 2 / 10]

/-- Result of one run of `main`: the trace of observable effects, the
exit status (`some c` when `exit(c)` was called, `none` when `main`
returned), and the values of the data variables when they were
assigned. -/
structure RunResult (α : Type) where
  effects : List Effect
  exitCode : Option Nat
  shuffled : Option (List α)
  split_ratio : Option (List Rat)
  trainset : Option (List α)
  validset : Option (List α)
  testset : Option (List α)
deriving Repr

/-- An `exit(1)` taken during argument validation, before any data was
touched. -/
def earlyExit (α : Type) (effs : List Effect) : RunResult α :=
  { effects := effs, exitCode := some 1, shuffled := none, split_ratio := none,
    trainset := none, validset := none, testset := none }

/-- The body of `main` (`main.py` lines 61-163) after argument parsing,
as a function of the parsed arguments and of the external collaborators:
`getPath` is `utils.get_path`, `isDir` is `os.path.isdir`, `samples` is
the value of `preprocessing.get_samples`, `seedFn` models
`random.seed` (the generator state it installs from the seed),
`shuffleFn` models `random.shuffle` as a function of that state,
`rng0` is the ambient generator state on entry, and `splitsFn` is
`DataLoader.splits`.  The three validation exits, the run-directory
setup, the seeding, the init/train/test data pipeline with the
`--sample-size` truncation (whose validation bound on line 126 is
computed in IEEE-754 binary64 arithmetic, via `sampleValidBound`), and
the train/test/plot dispatch are translated branch by branch. -/
def mainRun {α : Type} (a : Args) (getPath : Args → String) (isDir : String → Bool)
    (samples : List α) (seedFn : Int → Nat) (shuffleFn : Nat → List α → List α)
    (rng0 : Nat) (splitsFn : List α → List Rat → List α × List α × List α) :
    RunResult α :=
  if noMode a then
    earlyExit α [Effect.logError noModeMsg]
  else
    let dirEff : List Effect :=
      if dirGateCond a then [Effect.checkDir (getPath a)] else []
    if dirGateCond a && !isDir (getPath a) then
      earlyExit α (dirEff ++ [Effect.logError (dirErrMsg (getPath a))])
    else if testGateCond a then
      earlyExit α (dirEff ++ [Effect.logError testErrMsg])
    else
      let setupEff : List Effect :=
        if a.save && !initOnly a then
          [Effect.saveConfig, Effect.makeDirs (getPath a),
           Effect.addFileHandler (getPath a ++ "/output.log")]
        else []
      let rng1 := seedFn a.seed
      let doInit := a.init || a.train || a.test
      let initEff : List Effect :=
        if doInit then
          [Effect.datasetLoad, Effect.gloveLoad, Effect.getSamples, Effect.shuffle]
        else []
      let shuf := shuffleFn rng1 samples
      let doTT := a.train || a.test
      let tvt := splitsFn shuf split_ratio_const
      let trainset : List α :=
        match a.sample_size with
        | some n => pySlice tvt.1 n
        | none => tvt.1
      let validset : List α :=
        match a.sample_size with
        | some n => pySlice tvt.2.1 (sampleValidBound n)
        | none => tvt.2.1
      let ttEff : List Effect :=
        if doTT then
          Effect.createModel ::
            (match a.load with | some l => [Effect.loadModel l] | none => [])
        else []
      let trainEff : List Effect := if a.train then [Effect.trainModel] else []
      let baseEff :=
        dirEff ++ setupEff ++ [Effect.torchManualSeed a.seed] ++ initEff ++ ttEff ++ trainEff
      let base : RunResult α :=
        { effects := baseEff, exitCode := none,
          shuffled := if doInit then some shuf else none,
          split_ratio := if doTT then some split_ratio_const else none,
          trainset := if doTT then some trainset else none,
          validset := if doTT then some validset else none,
          testset := if doTT then some tvt.2.2 else none }
      let plotEff : List Effect :=
        if a.plot then
          (if a.train then [] else [Effect.loadTrainingData]) ++
            [Effect.logInfo plotMsg, Effect.plot]
        else []
      if a.test then
        if a.train || a.load.isSome then
          { base with effects := baseEff ++ [Effect.evaluate, Effect.logTestMetrics] ++ plotEff }
        else
          { base with effects := baseEff ++ [Effect.logError noModelMsg], exitCode := some 1 }
      else
        { base with effects := baseEff ++ plotEff }


/-- Message length of the formatted directory error: the fixed prefix of
`dirErrMsg` has 51 characters, so the message is never the 27-character
`noModelMsg`. -/
lemma noModelMsg_ne_dirErrMsg (p : String) : noModelMsg ≠ dirErrMsg p := by
  intro h
  have hl := congrArg String.length h
  rw [dirErrMsg, String.length_append] at hl
  have h1 : noModelMsg.length = 27 := by decide
  have h2 : ("Could not find directory for current configuration ").length = 51 := by decide
  omega

lemma mainRun_noMode {α : Type} (a : Args) (getPath : Args → String) (isDir : String → Bool)
    (samples : List α) (seedFn : Int → Nat) (shuffleFn : Nat → List α → List α)
    (rng0 : Nat) (splitsFn : List α → List Rat → List α × List α × List α)
    (h : noMode a = true) :
    mainRun a getPath isDir samples seedFn shuffleFn rng0 splitsFn =
      earlyExit α [Effect.logError noModeMsg] := by
  simp [mainRun, h]

lemma mainRun_dirExit {α : Type} (a : Args) (getPath : Args → String) (isDir : String → Bool)
    (samples : List α) (seedFn : Int → Nat) (shuffleFn : Nat → List α → List α)
    (rng0 : Nat) (splitsFn : List α → List Rat → List α × List α × List α)
    (h0 : noMode a = false) (h1 : dirGateCond a = true) (h2 : isDir (getPath a) = false) :
    mainRun a getPath isDir samples seedFn shuffleFn rng0 splitsFn =
      earlyExit α [Effect.checkDir (getPath a), Effect.logError (dirErrMsg (getPath a))] := by
  simp [mainRun, h0, h1, h2]

lemma mainRun_testExit {α : Type} (a : Args) (getPath : Args → String) (isDir : String → Bool)
    (samples : List α) (seedFn : Int → Nat) (shuffleFn : Nat → List α → List α)
    (rng0 : Nat) (splitsFn : List α → List Rat → List α × List α × List α)
    (h0 : noMode a = false) (h1 : (dirGateCond a && !isDir (getPath a)) = false)
    (h2 : testGateCond a = true) :
    mainRun a getPath isDir samples seedFn shuffleFn rng0 splitsFn =
      earlyExit α ((if dirGateCond a then [Effect.checkDir (getPath a)] else []) ++
        [Effect.logError testErrMsg]) := by
  simp [mainRun, h0, h1, h2]

lemma mainRun_success {α : Type} (a : Args) (getPath : Args → String) (isDir : String → Bool)
    (samples : List α) (seedFn : Int → Nat) (shuffleFn : Nat → List α → List α)
    (rng0 : Nat) (splitsFn : List α → List Rat → List α × List α × List α)
    (h0 : noMode a = false) (h1 : (dirGateCond a && !isDir (getPath a)) = false)
    (h2 : testGateCond a = false) :
    mainRun a getPath isDir samples seedFn shuffleFn rng0 splitsFn =
      { effects :=
          (if dirGateCond a then [Effect.checkDir (getPath a)] else []) ++
          (if a.save && !initOnly a then
            [Effect.saveConfig, Effect.makeDirs (getPath a),
             Effect.addFileHandler (getPath a ++ "/output.log")] else []) ++
          [Effect.torchManualSeed a.seed] ++
          (if a.init || a.train || a.test then
            [Effect.datasetLoad, Effect.gloveLoad, Effect.getSamples, Effect.shuffle] else []) ++
          (if a.train || a.test then
            Effect.createModel ::
              (match a.load with | some l => [Effect.loadModel l] | none => []) else []) ++
          (if a.train then [Effect.trainModel] else []) ++
          (if a.test then [Effect.evaluate, Effect.logTestMetrics] else []) ++
          (if a.plot then
            (if a.train then [] else [Effect.loadTrainingData]) ++
              [Effect.logInfo plotMsg, Effect.plot] else []),
        exitCode := none,
        shuffled := if a.init || a.train || a.test then
            some (shuffleFn (seedFn a.seed) samples) else none,
        split_ratio := if a.train || a.test then some split_ratio_const else none,
        trainset := if a.train || a.test then
            some (match a.sample_size with
              | some n => pySlice (splitsFn (shuffleFn (seedFn a.seed) samples) split_ratio_const).1 n
              | none => (splitsFn (shuffleFn (seedFn a.seed) samples) split_ratio_const).1)
          else none,
        validset := if a.train || a.test then
            some (match a.sample_size with
              | some n => pySlice (splitsFn (shuffleFn (seedFn a.seed) samples) split_ratio_const).2.1
                  (sampleValidBound n)
              | none => (splitsFn (shuffleFn (seedFn a.seed) samples) split_ratio_const).2.1)
          else none,
        testset := if a.train || a.test then
            some (splitsFn (shuffleFn (seedFn a.seed) samples) split_ratio_const).2.2
          else none } := by
  cases hte : a.test
  · simp [mainRun, h0, h1, h2, hte, List.append_assoc]
  · have ho : (a.train || a.load.isSome) = true := by
      cases htr : a.train <;> cases hlo : a.load.isSome <;> simp_all [testGateCond]
    simp [mainRun, h0, h1, h2, hte, ho, List.append_assoc]

/-- Concrete path constructor used to instantiate the theorems below. -/
def cGetPath : Args → String := fun _ => "run"

/-- Concrete `random.seed` model used to instantiate the theorems below. -/
def cSeedFn : Int → Nat := fun s => s.natAbs

/-- Concrete shuffle used to instantiate the theorems below. -/
def cShuffle : Nat → List Nat → List Nat := fun _ l => l

/-- Concrete `DataLoader.splits` used to instantiate the theorems below:
first three, next two, rest. -/
def cSplits : List Nat → List Rat → List Nat × List Nat × List Nat :=
  fun l _ => (l.take 3, (l.drop 3).take 2, l.drop 5)

/-- Claim C1: in every parsed configuration where none of `--init`,
`--train`, `--test`, `--plot` is set, `main` logs an error and exits with
status 1, and no dataset is loaded, no model is created and no file is
written beforehand. -/
theorem noMode_exits {α : Type} (a : Args) (getPath : Args → String) (isDir : String → Bool)
    (samples : List α) (seedFn : Int → Nat) (shuffleFn : Nat → List α → List α)
    (rng0 : Nat) (splitsFn : List α → List Rat → List α × List α × List α)
    (h1 : a.init = false) (h2 : a.train = false) (h3 : a.test = false) (h4 : a.plot = false) :
    (mainRun a getPath isDir samples seedFn shuffleFn rng0 splitsFn).exitCode = some 1 ∧
    (mainRun a getPath isDir samples seedFn shuffleFn rng0 splitsFn).effects =
      [Effect.logError noModeMsg] ∧
    Effect.datasetLoad ∉ (mainRun a getPath isDir samples seedFn shuffleFn rng0 splitsFn).effects ∧
    Effect.createModel ∉ (mainRun a getPath isDir samples seedFn shuffleFn rng0 splitsFn).effects ∧
    Effect.saveConfig ∉ (mainRun a getPath isDir samples seedFn shuffleFn rng0 splitsFn).effects ∧
    (∀ p, Effect.makeDirs p ∉
      (mainRun a getPath isDir samples seedFn shuffleFn rng0 splitsFn).effects) ∧
    (∀ p, Effect.addFileHandler p ∉
      (mainRun a getPath isDir samples seedFn shuffleFn rng0 splitsFn).effects) := by
  have hm : noMode a = true := by simp [noMode, h1, h2, h3, h4]
  rw [mainRun_noMode a getPath isDir samples seedFn shuffleFn rng0 splitsFn hm]
  simp [earlyExit]

/-- Witness for C1 at the default (no-flag) configuration. -/
theorem noMode_exits_witness :
    defaultArgs.init = false ∧ defaultArgs.train = false ∧ defaultArgs.test = false ∧
    defaultArgs.plot = false ∧
    (mainRun defaultArgs cGetPath (fun _ => true) ([] : List Nat)
      cSeedFn cShuffle 0 cSplits).exitCode = some 1 :=
  ⟨rfl, rfl, rfl, rfl,
    (noMode_exits defaultArgs cGetPath (fun _ => true) [] cSeedFn cShuffle 0 cSplits
      rfl rfl rfl rfl).1⟩

/-- Claim C2: with `--test` set but `--train` unset and `--load` absent,
`main` logs an error and exits with status 1, before any dataset loading
or model construction. -/
theorem test_without_model_exits {α : Type} (a : Args) (getPath : Args → String)
    (isDir : String → Bool) (samples : List α) (seedFn : Int → Nat)
    (shuffleFn : Nat → List α → List α) (rng0 : Nat)
    (splitsFn : List α → List Rat → List α × List α × List α)
    (h1 : a.test = true) (h2 : a.train = false) (h3 : a.load = none) :
    (mainRun a getPath isDir samples seedFn shuffleFn rng0 splitsFn).exitCode = some 1 ∧
    (∃ m, Effect.logError m ∈
      (mainRun a getPath isDir samples seedFn shuffleFn rng0 splitsFn).effects) ∧
    Effect.datasetLoad ∉ (mainRun a getPath isDir samples seedFn shuffleFn rng0 splitsFn).effects ∧
    Effect.gloveLoad ∉ (mainRun a getPath isDir samples seedFn shuffleFn rng0 splitsFn).effects ∧
    Effect.createModel ∉ (mainRun a getPath isDir samples seedFn shuffleFn rng0 splitsFn).effects ∧
    (∀ e, Effect.loadModel e ∉
      (mainRun a getPath isDir samples seedFn shuffleFn rng0 splitsFn).effects) := by
  have hnm : noMode a = false := by simp [noMode, h1]
  have htg : testGateCond a = true := by simp [testGateCond, h1, h2, h3]
  by_cases hdg : dirGateCond a = true
  · cases hd : isDir (getPath a)
    · rw [mainRun_dirExit a getPath isDir samples seedFn shuffleFn rng0 splitsFn hnm hdg hd]
      refine ⟨rfl, ⟨dirErrMsg (getPath a), by simp [earlyExit]⟩, ?_, ?_, ?_, ?_⟩ <;>
        simp [earlyExit]
    · have hgate : (dirGateCond a && !isDir (getPath a)) = false := by simp [hd]
      rw [mainRun_testExit a getPath isDir samples seedFn shuffleFn rng0 splitsFn hnm hgate htg]
      refine ⟨rfl, ⟨testErrMsg, by simp [earlyExit]⟩, ?_, ?_, ?_, ?_⟩ <;>
        simp [earlyExit, hdg]
  · have hdg' : dirGateCond a = false := by simpa using hdg
    have hgate : (dirGateCond a && !isDir (getPath a)) = false := by simp [hdg']
    rw [mainRun_testExit a getPath isDir samples seedFn shuffleFn rng0 splitsFn hnm hgate htg]
    refine ⟨rfl, ⟨testErrMsg, by simp [earlyExit]⟩, ?_, ?_, ?_, ?_⟩ <;>
      simp [earlyExit, hdg']

/-- Witness for C2 at the `--test`-only configuration. -/
theorem test_without_model_exits_witness :
    ({ defaultArgs with test := true } : Args).test = true ∧
    ({ defaultArgs with test := true } : Args).train = false ∧
    ({ defaultArgs with test := true } : Args).load = none ∧
    (mainRun { defaultArgs with test := true } cGetPath (fun _ => true) ([] : List Nat)
      cSeedFn cShuffle 0 cSplits).exitCode = some 1 :=
  ⟨rfl, rfl, rfl,
    (test_without_model_exits { defaultArgs with test := true } cGetPath (fun _ => true) []
      cSeedFn cShuffle 0 cSplits rfl rfl rfl).1⟩

/-- Claim C7: parsing an empty command line yields the documented
defaults: `batch_size = 64`, `epochs = 10`, `lr = 1e-4`, `seed = 0`,
`save = True`, the library-selector strings, `load` and `sample_size`
absent, and all four mode flags off. -/
theorem parse_args_defaults :
    parse_args [] = some
      { init := false, train := false, test := false, plot := false,
        batch_size := 64, data_loader := "BatchLoader", dataset := "FakeRealNews",
        epochs := 10, lr := 1 / 10000, load := none, loss := "BCEWithLogitsLoss",
        model := "FakeNewsNet", sample_size := none, seed := 0, save := true } := rfl

/-- Claim C9: the shuffled sample order and the three split contents do
not depend on the ambient random-generator state on entry, because the
generator is re-seeded from `args.seed` before `random.shuffle`; two runs
with identical arguments and samples therefore agree. -/
theorem seeded_determinism {α : Type} (a : Args) (getPath : Args → String)
    (isDir : String → Bool) (samples : List α) (seedFn : Int → Nat)
    (shuffleFn : Nat → List α → List α) (rng0 rng0' : Nat)
    (splitsFn : List α → List Rat → List α × List α × List α) :
    (mainRun a getPath isDir samples seedFn shuffleFn rng0 splitsFn).shuffled =
      (mainRun a getPath isDir samples seedFn shuffleFn rng0' splitsFn).shuffled ∧
    (mainRun a getPath isDir samples seedFn shuffleFn rng0 splitsFn).trainset =
      (mainRun a getPath isDir samples seedFn shuffleFn rng0' splitsFn).trainset ∧
    (mainRun a getPath isDir samples seedFn shuffleFn rng0 splitsFn).validset =
      (mainRun a getPath isDir samples seedFn shuffleFn rng0' splitsFn).validset ∧
    (mainRun a getPath isDir samples seedFn shuffleFn rng0 splitsFn).testset =
      (mainRun a getPath isDir samples seedFn shuffleFn rng0' splitsFn).testset :=
  ⟨rfl, rfl, rfl, rfl⟩

/-- Claim C10: a run with only `--init` set and saving at its default
skips the run-directory setup entirely: no configuration save, no
directory creation, no file log handler. -/
theorem init_only_no_writes {α : Type} (a : Args) (getPath : Args → String)
    (isDir : String → Bool) (samples : List α) (seedFn : Int → Nat)
    (shuffleFn : Nat → List α → List α) (rng0 : Nat)
    (splitsFn : List α → List Rat → List α × List α × List α)
    (h1 : a.init = true) (h2 : a.train = false) (h3 : a.test = false) (h4 : a.plot = false)
    (h5 : a.save = true) :
    Effect.saveConfig ∉ (mainRun a getPath isDir samples seedFn shuffleFn rng0 splitsFn).effects ∧
    (∀ p, Effect.makeDirs p ∉
      (mainRun a getPath isDir samples seedFn shuffleFn rng0 splitsFn).effects) ∧
    (∀ p, Effect.addFileHandler p ∉
      (mainRun a getPath isDir samples seedFn shuffleFn rng0 splitsFn).effects) := by
  have hnm : noMode a = false := by simp [noMode, h1]
  have htg : testGateCond a = false := by simp [testGateCond, h3]
  have hio : initOnly a = true := by simp [initOnly, h1, h2, h3, h4]
  by_cases hgate : (dirGateCond a && !isDir (getPath a)) = true
  · obtain ⟨hdg, hd⟩ := by simpa using hgate
    rw [mainRun_dirExit a getPath isDir samples seedFn shuffleFn rng0 splitsFn hnm hdg
      (by simpa using hd)]
    refine ⟨?_, ?_, ?_⟩ <;> simp [earlyExit]
  · have hgate' : (dirGateCond a && !isDir (getPath a)) = false := by simpa using hgate
    rw [mainRun_success a getPath isDir samples seedFn shuffleFn rng0 splitsFn hnm hgate' htg]
    refine ⟨?_, ?_, ?_⟩ <;>
      cases hlo : a.load <;>
        simp [hio, h2, h3, h4, List.mem_append]

/-- Witness for C10 at the `--init`-only configuration. -/
theorem init_only_no_writes_witness :
    ({ defaultArgs with init := true } : Args).init = true ∧
    ({ defaultArgs with init := true } : Args).save = true ∧
    Effect.saveConfig ∉
      (mainRun { defaultArgs with init := true } cGetPath (fun _ => true) ([] : List Nat)
        cSeedFn cShuffle 0 cSplits).effects :=
  ⟨rfl, rfl,
    (init_only_no_writes { defaultArgs with init := true } cGetPath (fun _ => true) []
      cSeedFn cShuffle 0 cSplits rfl rfl rfl rfl rfl).1⟩

/-- Counterexample to claim C3 as stated: `--test` alone satisfies
"whenever `--train` or `--test` is set", yet `main` exits with status 1
at the test-mode precondition before any split is performed, so no split
with ratio `[0.6, 0.2, 0.2]` (or any other) happens. -/
theorem split_ratio_claim_counterexample :
    ({ defaultArgs with test := true } : Args).test = true ∧
    (mainRun { defaultArgs with test := true } cGetPath (fun _ => true) ([] : List Nat)
      cSeedFn cShuffle 0 cSplits).split_ratio = none ∧
    (mainRun { defaultArgs with test := true } cGetPath (fun _ => true) ([] : List Nat)
      cSeedFn cShuffle 0 cSplits).exitCode = some 1 :=
  ⟨rfl, rfl, rfl⟩

/-- Claim C3 as amended: whenever `--train` or `--test` is set and the
run passes argument validation, `main` splits the shuffled samples into
exactly three subsets with the constant ratio `[0.6, 0.2, 0.2]`; the
ratio does not depend on any option (the arguments are universally
quantified), has three entries, and sums to 1. -/
theorem split_ratio_fixed {α : Type} (a : Args) (getPath : Args → String)
    (isDir : String → Bool) (samples : List α) (seedFn : Int → Nat)
    (shuffleFn : Nat → List α → List α) (rng0 : Nat)
    (splitsFn : List α → List Rat → List α × List α × List α)
    (hv : passesValidation a (isDir (getPath a)) = true)
    (htt : a.train = true ∨ a.test = true) :
    (mainRun a getPath isDir samples seedFn shuffleFn rng0 splitsFn).split_ratio =
      some split_ratio_const ∧
    split_ratio_const = [6 / 10, 2 / 10, 2 / 10] ∧
    split_ratio_const.length = 3 ∧
    split_ratio_const.sum = 1 := by
  rw [passesValidation] at hv
  simp only [Bool.and_eq_true, Bool.not_eq_true'] at hv
  obtain ⟨⟨hnm, hgate⟩, htg⟩ := hv
  have hTT : (a.train || a.test) = true := by rcases htt with h | h <;> simp [h]
  rw [mainRun_success a getPath isDir samples seedFn shuffleFn rng0 splitsFn hnm hgate htg]
  refine ⟨by simp [hTT], rfl, rfl, by norm_num [split_ratio_const]⟩

/-- Witness for the amended C3 at the `--train`-only configuration. -/
theorem split_ratio_fixed_witness :
    passesValidation { defaultArgs with train := true } true = true ∧
    (({ defaultArgs with train := true } : Args).train = true ∨
      ({ defaultArgs with train := true } : Args).test = true) ∧
    (mainRun { defaultArgs with train := true } cGetPath (fun _ => true) ([] : List Nat)
      cSeedFn cShuffle 0 cSplits).split_ratio = some split_ratio_const :=
  ⟨by decide, Or.inl rfl,
    (split_ratio_fixed { defaultArgs with train := true } cGetPath (fun _ => true) []
      cSeedFn cShuffle 0 cSplits (by decide) (Or.inl rfl)).1⟩

set_option maxRecDepth 100000

/-- Concrete directory probe that reports every path as missing. -/
def cIsDirFalse : String → Bool := fun _ => false

/-- Claim C5: when `--load` is given, or `--plot` is set without
`--train`, and the run directory computed by `utils.get_path(args)` does
not exist, `main` logs an error and exits with status 1 before any other
work; in every other configuration the directory existence is not
checked at this point. -/
theorem dir_gate_check {α : Type} (a : Args) (getPath : Args → String)
    (isDir : String → Bool) (samples : List α) (seedFn : Int → Nat)
    (shuffleFn : Nat → List α → List α) (rng0 : Nat)
    (splitsFn : List α → List Rat → List α × List α × List α) :
    (dirGateCond a = true → isDir (getPath a) = false →
      (mainRun a getPath isDir samples seedFn shuffleFn rng0 splitsFn).exitCode = some 1 ∧
      (∃ m, Effect.logError m ∈
        (mainRun a getPath isDir samples seedFn shuffleFn rng0 splitsFn).effects) ∧
      Effect.datasetLoad ∉
        (mainRun a getPath isDir samples seedFn shuffleFn rng0 splitsFn).effects ∧
      Effect.gloveLoad ∉
        (mainRun a getPath isDir samples seedFn shuffleFn rng0 splitsFn).effects ∧
      Effect.createModel ∉
        (mainRun a getPath isDir samples seedFn shuffleFn rng0 splitsFn).effects ∧
      Effect.saveConfig ∉
        (mainRun a getPath isDir samples seedFn shuffleFn rng0 splitsFn).effects ∧
      (∀ p, Effect.makeDirs p ∉
        (mainRun a getPath isDir samples seedFn shuffleFn rng0 splitsFn).effects) ∧
      (∀ p, Effect.addFileHandler p ∉
        (mainRun a getPath isDir samples seedFn shuffleFn rng0 splitsFn).effects) ∧
      Effect.trainModel ∉
        (mainRun a getPath isDir samples seedFn shuffleFn rng0 splitsFn).effects ∧
      Effect.evaluate ∉
        (mainRun a getPath isDir samples seedFn shuffleFn rng0 splitsFn).effects ∧
      Effect.plot ∉
        (mainRun a getPath isDir samples seedFn shuffleFn rng0 splitsFn).effects) ∧
    (dirGateCond a = false → ∀ p, Effect.checkDir p ∉
      (mainRun a getPath isDir samples seedFn shuffleFn rng0 splitsFn).effects) := by
  constructor
  · intro hdg hd
    by_cases hnm : noMode a = true
    · rw [mainRun_noMode a getPath isDir samples seedFn shuffleFn rng0 splitsFn hnm]
      exact ⟨rfl, ⟨noModeMsg, by simp [earlyExit]⟩, by simp [earlyExit], by simp [earlyExit],
        by simp [earlyExit], by simp [earlyExit], by simp [earlyExit], by simp [earlyExit],
        by simp [earlyExit], by simp [earlyExit], by simp [earlyExit]⟩
    · have hnm' : noMode a = false := by simpa using hnm
      rw [mainRun_dirExit a getPath isDir samples seedFn shuffleFn rng0 splitsFn hnm' hdg hd]
      exact ⟨rfl, ⟨dirErrMsg (getPath a), by simp [earlyExit]⟩, by simp [earlyExit],
        by simp [earlyExit], by simp [earlyExit], by simp [earlyExit], by simp [earlyExit],
        by simp [earlyExit], by simp [earlyExit], by simp [earlyExit], by simp [earlyExit]⟩
  · intro hdg p
    by_cases hnm : noMode a = true
    · rw [mainRun_noMode a getPath isDir samples seedFn shuffleFn rng0 splitsFn hnm]
      simp [earlyExit]
    · have hnm' : noMode a = false := by simpa using hnm
      have hgate : (dirGateCond a && !isDir (getPath a)) = false := by simp [hdg]
      by_cases htg : testGateCond a = true
      · rw [mainRun_testExit a getPath isDir samples seedFn shuffleFn rng0 splitsFn
          hnm' hgate htg]
        simp [earlyExit, hdg]
      · have htg' : testGateCond a = false := by simpa using htg
        rw [mainRun_success a getPath isDir samples seedFn shuffleFn rng0 splitsFn
          hnm' hgate htg']
        cases hlo : a.load <;>
          simp [hdg, List.mem_append]

/-- Witness for C5: `--plot` without `--train` on a missing run
directory exits with status 1. -/
theorem dir_gate_check_witness :
    dirGateCond { defaultArgs with plot := true } = true ∧
    cIsDirFalse (cGetPath { defaultArgs with plot := true }) = false ∧
    (mainRun { defaultArgs with plot := true } cGetPath cIsDirFalse ([] : List Nat)
      cSeedFn cShuffle 0 cSplits).exitCode = some 1 :=
  ⟨rfl, rfl,
    ((dir_gate_check { defaultArgs with plot := true } cGetPath cIsDirFalse []
      cSeedFn cShuffle 0 cSplits).1 rfl rfl).1⟩

/-- Counterexample to claim C6 as stated: with `--test` alone, saving is
enabled (the default) and the run is not init-only, yet `main` exits at
the test-mode precondition without saving the configuration, so the
"if" direction of the biconditional fails. -/
theorem save_setup_claim_counterexample :
    ({ defaultArgs with test := true } : Args).save = true ∧
    initOnly { defaultArgs with test := true } = false ∧
    Effect.saveConfig ∉
      (mainRun { defaultArgs with test := true } cGetPath (fun _ => true) ([] : List Nat)
        cSeedFn cShuffle 0 cSplits).effects :=
  ⟨rfl, rfl, by decide⟩

/-- Claim C6 as amended: provided the run passes argument validation,
`main` saves the run configuration, creates the run directory, and
attaches a file log handler at `get_path(args) + "/output.log"` if and
only if saving is enabled (the default, disabled by `--no-save`) and the
run is not init-only. -/
theorem save_setup_iff {α : Type} (a : Args) (getPath : Args → String)
    (isDir : String → Bool) (samples : List α) (seedFn : Int → Nat)
    (shuffleFn : Nat → List α → List α) (rng0 : Nat)
    (splitsFn : List α → List Rat → List α × List α × List α)
    (hv : passesValidation a (isDir (getPath a)) = true) :
    (Effect.saveConfig ∈
        (mainRun a getPath isDir samples seedFn shuffleFn rng0 splitsFn).effects ∧
      Effect.makeDirs (getPath a) ∈
        (mainRun a getPath isDir samples seedFn shuffleFn rng0 splitsFn).effects ∧
      Effect.addFileHandler (getPath a ++ "/output.log") ∈
        (mainRun a getPath isDir samples seedFn shuffleFn rng0 splitsFn).effects) ↔
    (a.save = true ∧ initOnly a = false) := by
  rw [passesValidation] at hv
  simp only [Bool.and_eq_true, Bool.not_eq_true'] at hv
  obtain ⟨⟨hnm, hgate⟩, htg⟩ := hv
  rw [mainRun_success a getPath isDir samples seedFn shuffleFn rng0 splitsFn hnm hgate htg]
  constructor
  · rintro ⟨hsc, -, -⟩
    by_cases hs : a.save = true
    · refine ⟨hs, ?_⟩
      by_cases hio : initOnly a = true
      · exfalso
        revert hsc
        cases hlo : a.load <;>
          simp [hs, hio, List.mem_append]
      · simpa using hio
    · exfalso
      have hs' : a.save = false := by simpa using hs
      revert hsc
      cases hlo : a.load <;>
        simp [hs', List.mem_append]
  · rintro ⟨hs, hio⟩
    have hcond : (a.save && !initOnly a) = true := by simp [hs, hio]
    refine ⟨?_, ?_, ?_⟩ <;> simp [hcond, List.mem_append]

/-- Witness for the amended C6 at the `--train`-only configuration. -/
theorem save_setup_iff_witness :
    passesValidation { defaultArgs with train := true } true = true ∧
    ({ defaultArgs with train := true } : Args).save = true ∧
    initOnly { defaultArgs with train := true } = false ∧
    Effect.saveConfig ∈
      (mainRun { defaultArgs with train := true } cGetPath (fun _ => true) ([] : List Nat)
        cSeedFn cShuffle 0 cSplits).effects :=
  ⟨by decide, rfl, rfl,
    ((save_setup_iff { defaultArgs with train := true } cGetPath (fun _ => true) []
      cSeedFn cShuffle 0 cSplits (by decide)).mpr ⟨rfl, rfl⟩).1⟩

/-- Claim C8: the inner else branch of the `--test` block ("No model
loaded for testing", exit 1) is unreachable — its error message is never
logged in any run — and whenever `--test` passes argument validation,
evaluation is performed. -/
theorem test_error_branch_unreachable {α : Type} (a : Args) (getPath : Args → String)
    (isDir : String → Bool) (samples : List α) (seedFn : Int → Nat)
    (shuffleFn : Nat → List α → List α) (rng0 : Nat)
    (splitsFn : List α → List Rat → List α × List α × List α) :
    Effect.logError noModelMsg ∉
      (mainRun a getPath isDir samples seedFn shuffleFn rng0 splitsFn).effects ∧
    (passesValidation a (isDir (getPath a)) = true → a.test = true →
      Effect.evaluate ∈
        (mainRun a getPath isDir samples seedFn shuffleFn rng0 splitsFn).effects) := by
  constructor
  · by_cases hnm : noMode a = true
    · rw [mainRun_noMode a getPath isDir samples seedFn shuffleFn rng0 splitsFn hnm]
      simp only [earlyExit, List.mem_singleton, Effect.logError.injEq]
      decide
    · have hnm' : noMode a = false := by simpa using hnm
      by_cases hgate : (dirGateCond a && !isDir (getPath a)) = true
      · have hdg : dirGateCond a = true := by
          rcases Bool.and_eq_true _ _ |>.mp hgate with ⟨h, _⟩; exact h
        have hd : isDir (getPath a) = false := by
          rcases Bool.and_eq_true _ _ |>.mp hgate with ⟨_, h⟩; simpa using h
        rw [mainRun_dirExit a getPath isDir samples seedFn shuffleFn rng0 splitsFn
          hnm' hdg hd]
        simp only [earlyExit, List.mem_cons, List.mem_singleton, Effect.logError.injEq]
        rintro (h | h | h)
        · exact Effect.noConfusion h
        · exact noModelMsg_ne_dirErrMsg (getPath a) h
        · simp at h
      · have hgate' : (dirGateCond a && !isDir (getPath a)) = false := by simpa using hgate
        by_cases htg : testGateCond a = true
        · rw [mainRun_testExit a getPath isDir samples seedFn shuffleFn rng0 splitsFn
            hnm' hgate' htg]
          simp only [earlyExit, List.mem_append, List.mem_singleton, Effect.logError.injEq]
          rintro (h | h)
          · revert h; split_ifs <;> simp
          · exact absurd h (by decide)
        · have htg' : testGateCond a = false := by simpa using htg
          rw [mainRun_success a getPath isDir samples seedFn shuffleFn rng0 splitsFn
            hnm' hgate' htg']
          cases hlo : a.load <;>
            simp [List.mem_append]
  · intro hv hte
    rw [passesValidation] at hv
    simp only [Bool.and_eq_true, Bool.not_eq_true'] at hv
    obtain ⟨⟨hnm, hgate⟩, htg⟩ := hv
    rw [mainRun_success a getPath isDir samples seedFn shuffleFn rng0 splitsFn hnm hgate htg]
    simp [hte, List.mem_append]

/-- Witness for C8: `--train --test` passes validation and evaluation is
performed. -/
theorem test_error_branch_unreachable_witness :
    passesValidation { defaultArgs with train := true, test := true } true = true ∧
    ({ defaultArgs with train := true, test := true } : Args).test = true ∧
    Effect.evaluate ∈
      (mainRun { defaultArgs with train := true, test := true } cGetPath (fun _ => true)
        ([] : List Nat) cSeedFn cShuffle 0 cSplits).effects :=
  ⟨by decide, rfl,
    (test_error_branch_unreachable { defaultArgs with train := true, test := true }
      cGetPath (fun _ => true) [] cSeedFn cShuffle 0 cSplits).2 (by decide) rfl⟩
